import Mathlib

/-!
Shallow embedding of the Nova Titan ML prediction service
(`src/ml/models/prediction_engine.py`, `src/ml/main.py`,
`src/ml/schemas/prediction_schemas.py`).

Python floats are modelled as real numbers.  A Python exception is a
`PyErr` value, and fallible Python calls are `Except PyErr` computations;
a `try/except Exception` block is a `match` on that result.  Python dicts
with string keys are association lists; `d[k]` is `dictGet`, which raises
`KeyError` when the key is absent, exactly as in Python.  External
collaborators (the cache manager, the feature builder, the fitted
sklearn/LightGBM model objects, `np.random` draws) are supplied as
explicit function/value parameters in environment records, so that
theorems quantify over every possible collaborator behaviour.
-/

namespace NovaTitan

/-- A Python exception, carrying its rendered message. -/
structure PyErr where
  msg : String
deriving DecidableEq

/-- `d[k]` on a Python dict with a missing key raises `KeyError(k)`. -/
def keyError (k : String) : PyErr := ⟨"KeyError: " ++ k⟩

/-- Calling a method on `None` raises `AttributeError`. -/
def attributeError : PyErr := ⟨"AttributeError: NoneType"⟩

/-- Attribute access on an `Optional` model component: `None` raises. -/
def attrOfOption : Option α → Except PyErr α
  | some a => .ok a
  | none => .error attributeError

/-- Lookup in a string-keyed Python dict (association list); a missing
key raises `KeyError`, as in `self.ensemble_weights['lightgbm']`. -/
def dictGet (d : List (String × ℝ)) (k : String) : Except PyErr ℝ :=
  match d.find? (fun kv => kv.1 == k) with
  | some kv => .ok kv.2
  | none => .error (keyError k)

/-- A fitted classifier, abstracted to the one way the engine uses it:
`model.predict_proba(x)[0, 1]`, the probability of the positive class.
A call may throw (an inference error). -/
def ModelFn : Type := List ℝ → Except PyErr ℝ

/-- A fitted `StandardScaler`, abstracted to `scaler.transform`. -/
def ScalerFn : Type := List ℝ → List ℝ

/-- `PredictionType` from `prediction_schemas.py`. -/
inductive PredictionType
  | win_probability
  | spread
  | total_points
  | player_performance
deriving DecidableEq, BEq

/-- The kind-specific payload dicts built by `predict`:
`{'probability': p, 'confidence': c}`, `{'spread': s, 'confidence': c}`,
`{'total': t, 'confidence': c}`. -/
inductive Payload
  | winProb (probability confidence : ℝ)
  | spread (spread confidence : ℝ)
  | total (total confidence : ℝ)

/-- The `'confidence'` entry that every payload dict carries. -/
def Payload.confidenceOf : Payload → ℝ
  | .winProb _ c => c
  | .spread _ c => c
  | .total _ c => c

/-- `PredictionExplanation` from `prediction_schemas.py`. -/
structure Explanation where
  main_factors : List String
  supporting_factors : List String
  risk_factors : List String
  confidence_reasoning : String
deriving DecidableEq

/-- `ModelFeatures` from `prediction_schemas.py` (floats as reals,
ints as integers, optional floats as `Option ℝ`). -/
structure Features where
  home_team_elo : ℝ
  away_team_elo : ℝ
  elo_spread : ℝ
  home_team_form : ℝ
  away_team_form : ℝ
  home_team_rest_days : ℤ
  away_team_rest_days : ℤ
  home_team_wins : ℤ
  home_team_losses : ℤ
  away_team_wins : ℤ
  away_team_losses : ℤ
  home_team_off_rating : Option ℝ
  home_team_def_rating : Option ℝ
  away_team_off_rating : Option ℝ
  away_team_def_rating : Option ℝ
  is_playoff : Bool
  is_back_to_back : Bool
  venue_advantage : ℝ
  temperature : Option ℝ
  wind_speed : Option ℝ
  precipitation : Bool
  home_team_injury_impact : ℝ
  away_team_injury_impact : ℝ

/-- `PredictionResult` from `prediction_schemas.py`; the `model_info`
dict is flattened into the three entries `predict` actually writes.
Timestamps are abstract ticks (`Nat`). -/
structure PredictionResult where
  game_id : String
  predictions : List (PredictionType × Payload)
  explanation : Option Explanation
  model_info_version : String
  model_info_last_trained : Option Nat
  model_info_ensemble_weights : List (String × ℝ)
  confidence : ℝ
  created_at : Nat

/-- `PredictionRequest` from `prediction_schemas.py` (an empty
`prediction_types` list plays the role of Python `None`, both being
falsy in the `if not prediction_types` check). -/
structure PredRequest where
  game_id : String
  features : Option Features
  prediction_types : List PredictionType
  include_explanation : Bool

/-- `ModelPerformance` from `prediction_schemas.py` (the fields
`_evaluate_ensemble` fills from the sklearn metric calls). -/
structure ModelPerformance where
  accuracy : ℝ
  log_loss : ℝ
  auc_roc : ℝ
  calibration_score : ℝ
  last_trained : Nat
  training_samples : Nat
  model_version : String

/-- The mutable attributes of `PredictionEngine` (its `__init__` state):
model components, ensemble weights dict, scaler, feature names, version
metadata, trained flag and performance snapshot. -/
structure EngineState where
  lightgbm_model : Option ModelFn
  logistic_model : Option ModelFn
  random_forest_model : Option ModelFn
  ensemble_weights : List (String × ℝ)
  scaler : Option ScalerFn
  feature_names : List String
  model_version : String
  last_trained : Option Nat
  is_trained : Bool
  performance_metrics : Option ModelPerformance

/-- `PredictionEngine.__init__`: no models, an EMPTY ensemble-weights
dict, no scaler, version `"1.0.0"`, untrained. -/
def initEngine : EngineState :=
  { lightgbm_model := none
    logistic_model := none
    random_forest_model := none
    ensemble_weights := []
    scaler := none
    feature_names := []
    model_version := "1.0.0"
    last_trained := none
    is_trained := false
    performance_metrics := none }

/-- `PredictionEngine.retrain_model`: "For now, just update the
timestamp" — sets `last_trained = datetime.utcnow()` and nothing else. -/
def retrain_model (s : EngineState) (now : Nat) : EngineState :=
  { s with last_trained := some now }

/-- The default ensemble weights used by `_load_models` when the
metadata dict has no `'ensemble_weights'` key. -/
def defaultEnsembleWeights : List (String × ℝ) :=
  [("lightgbm", 0.5), ("logistic", 0.3), ("random_forest", 0.2)]

/-- The on-disk state `_load_models` reads: whether all five artifact
files exist, the joblib-loaded model/scaler objects, and the metadata
dict entries (each `Option` because the code reads them with
`metadata.get`). -/
structure Disk where
  allFilesExist : Bool
  lgbModel : ModelFn
  logisticModel : ModelFn
  rfModel : ModelFn
  scalerFn : ScalerFn
  metaVersion : Option String
  metaLastTrained : Option Nat
  metaFeatureNames : Option (List String)
  metaEnsembleWeights : Option (List (String × ℝ))
  metaPerformance : Option ModelPerformance

/-- `PredictionEngine._load_models`: if all five files exist, load them
and the metadata verbatim (weights defaulting to
`{lightgbm: 0.5, logistic: 0.3, random_forest: 0.2}` when absent) and
set `is_trained = True`; otherwise leave the state unchanged.  No
validation of any kind is performed on the loaded bundle. -/
def load_models (s : EngineState) (d : Disk) : EngineState :=
  if d.allFilesExist then
    { s with
      lightgbm_model := some d.lgbModel
      logistic_model := some d.logisticModel
      random_forest_model := some d.rfModel
      scaler := some d.scalerFn
      model_version := d.metaVersion.getD "1.0.0"
      last_trained := d.metaLastTrained
      feature_names := d.metaFeatureNames.getD []
      ensemble_weights := d.metaEnsembleWeights.getD defaultEnsembleWeights
      performance_metrics := d.metaPerformance
      is_trained := true }
  else s

/-- The external collaborators of `_train_ensemble`: the fitted
artifacts produced by the sklearn/LightGBM `fit` calls, the per-model
validation predictions (`predict_proba(X_val)[:, 1]` columns), the
width of the training matrix, and the sklearn metric computations
(abstracted as a function from the ensemble prediction column to the
resulting `ModelPerformance`). -/
structure TrainEnv where
  fittedScaler : ScalerFn
  fittedLgb : ModelFn
  fittedLogistic : ModelFn
  fittedRF : ModelFn
  lgbValPred : List ℝ
  lrValPred : List ℝ
  rfValPred : List ℝ
  nFeatures : Nat
  metricsOf : List ℝ → ModelPerformance

/-- The body of `PredictionEngine._evaluate_ensemble` (the part inside
its `try`): look up the three ensemble weights in
`self.ensemble_weights` (each lookup may raise `KeyError`), combine the
validation prediction columns with those weights, and compute the
performance metrics. -/
def evaluate_ensemble_body (weights : List (String × ℝ))
    (lgbPred lrPred rfPred : List ℝ)
    (metricsOf : List ℝ → ModelPerformance) : Except PyErr ModelPerformance :=
  match dictGet weights "lightgbm" with
  | .error e => .error e
  | .ok wLgb =>
    match dictGet weights "logistic" with
    | .error e => .error e
    | .ok wLog =>
      match dictGet weights "random_forest" with
      | .error e => .error e
      | .ok wRf =>
        let ensemblePred :=
          List.zipWith (fun a b => a + b)
            (List.zipWith (fun a b => a + b)
              (lgbPred.map (fun p => wLgb * p))
              (lrPred.map (fun p => wLog * p)))
            (rfPred.map (fun p => wRf * p))
        .ok (metricsOf ensemblePred)

/-- `PredictionEngine._train_ensemble`: fit the scaler and the three
models, run `_evaluate_ensemble` (whose own `try/except` swallows any
exception, leaving `performance_metrics` untouched on failure), then
set `feature_names`, `is_trained = True` and `last_trained = now`.
Note that `ensemble_weights` is never written. -/
def train_ensemble (s : EngineState) (env : TrainEnv) (now : Nat) : EngineState :=
  let s1 := { s with
    scaler := some env.fittedScaler
    lightgbm_model := some env.fittedLgb
    logistic_model := some env.fittedLogistic
    random_forest_model := some env.fittedRF }
  let s2 :=
    match evaluate_ensemble_body s1.ensemble_weights env.lgbValPred
        env.lrValPred env.rfValPred env.metricsOf with
    | .ok perf => { s1 with performance_metrics := some perf }
    | .error _ => s1
  { s2 with
    feature_names := (List.range env.nFeatures).map (fun i => "feature_" ++ toString i)
    is_trained := true
    last_trained := some now }

/-- `np.std([a, b, c])`: population standard deviation (ddof = 0) of the
three per-model probabilities, as computed in `_predict_win_probability`. -/
noncomputable def npStd3 (a b c : ℝ) : ℝ :=
  Real.sqrt (((a - (a + b + c) / 3) ^ 2 + (b - (a + b + c) / 3) ^ 2 +
    (c - (a + b + c) / 3) ^ 2) / 3)

/-- `confidence = max(0.5, 1.0 - (std_dev * 2))` from
`_predict_win_probability`. -/
noncomputable def confidence3 (a b c : ℝ) : ℝ :=
  max 0.5 (1.0 - npStd3 a b c * 2)

/-- The external collaborators and random draws `predict` and its
helpers consume: the cache manager (`hasCacheManager` is
`self.cache_manager is not None`; raw cached values are abstract `Nat`
tokens that `parseObj` may fail to validate), the feature builder, the
Python builtin `hash`, `str` on a `ModelFeatures` object, the
`np.random.uniform` draws of the untrained/demo/total paths, and the
feature-importance list `_get_feature_importance()` returns (with the
`f"{imp:.2f}"` float formatting abstracted as `fmtImportance`). -/
structure PredictEnv where
  hasCacheManager : Bool
  cacheGet : String → Except PyErr (Option Nat)
  parseObj : Nat → Except PyErr PredictionResult
  buildFromFeatures : Features → Except PyErr (List ℝ)
  buildFromGameId : String → Except PyErr (List ℝ)
  cacheSet : String → PredictionResult → Nat → Except PyErr Unit
  hashFn : String → Int
  strFeatures : Features → String
  untrainedProb : ℝ
  untrainedConf : ℝ
  demoProb : ℝ
  demoConf : ℝ
  totalPoints : ℝ
  totalConf : ℝ
  featureImportances : List (String × ℝ)
  fmtImportance : ℝ → String

/-- Python `str(features)` where `features: Optional[ModelFeatures]`:
`str(None)` is the literal `"None"`; on a present object it is the
pydantic rendering of the object. -/
def pyStrOfFeatures (strF : Features → String) : Option Features → String
  | none => "None"
  | some f => strF f

/-- The cache key of `predict`:
`f"prediction:{game_id}:{hash(str(features))}"`. -/
def cache_key_of (env : PredictEnv) (gameId : String)
    (features : Option Features) : String :=
  "prediction:" ++ gameId ++ ":" ++
    toString (env.hashFn (pyStrOfFeatures env.strFeatures features))

/-- The body of `PredictionEngine._predict_win_probability` (the part
inside its `try`): untrained engines return the bounded-random
placeholder pair; trained engines scale the vector, query the three
models (LightGBM and random forest on the RAW vector, logistic
regression on the SCALED vector), look up the three ensemble weights
(`KeyError` if absent), combine them as a weighted sum, and derive the
confidence from the inter-model standard deviation. -/
noncomputable def predict_win_probability_body (s : EngineState)
    (env : PredictEnv) (v : List ℝ) : Except PyErr (ℝ × ℝ) :=
  if s.is_trained then
    match attrOfOption s.scaler with
    | .error e => .error e
    | .ok scaler =>
      let vScaled := scaler v
      match attrOfOption s.lightgbm_model with
      | .error e => .error e
      | .ok lgbModel =>
        match lgbModel v with
        | .error e => .error e
        | .ok lgbPred =>
          match attrOfOption s.logistic_model with
          | .error e => .error e
          | .ok logModel =>
            match logModel vScaled with
            | .error e => .error e
            | .ok lrPred =>
              match attrOfOption s.random_forest_model with
              | .error e => .error e
              | .ok rfModel =>
                match rfModel v with
                | .error e => .error e
                | .ok rfPred =>
                  match dictGet s.ensemble_weights "lightgbm" with
                  | .error e => .error e
                  | .ok wLgb =>
                    match dictGet s.ensemble_weights "logistic" with
                    | .error e => .error e
                    | .ok wLog =>
                      match dictGet s.ensemble_weights "random_forest" with
                      | .error e => .error e
                      | .ok wRf =>
                        .ok (wLgb * lgbPred + wLog * lrPred + wRf * rfPred,
                          confidence3 lgbPred lrPred rfPred)
  else
    .ok (env.untrainedProb, env.untrainedConf)

/-- `PredictionEngine._predict_win_probability`: its blanket
`except Exception` turns any failure of the body into the local
fallback pair `(0.5, 0.5)` — the method itself never raises. -/
noncomputable def predict_win_probability (s : EngineState)
    (env : PredictEnv) (v : List ℝ) : ℝ × ℝ :=
  match predict_win_probability_body s env v with
  | .ok r => r
  | .error _ => (0.5, 0.5)

/-- `PredictionEngine._predict_spread`: derive the spread from the win
probability; both branches of the `if win_prob > 0.5` apply the same
linear map `(win_prob - 0.5) * 20`, and the confidence is passed
through. -/
noncomputable def predict_spread (s : EngineState) (env : PredictEnv)
    (v : List ℝ) : ℝ × ℝ :=
  let pc := predict_win_probability s env v
  let spread := if pc.1 > 0.5 then (pc.1 - 0.5) * 20 else (pc.1 - 0.5) * 20
  (spread, pc.2)

/-- `PredictionEngine._predict_total`: a bounded-random placeholder
(`np.random.uniform` draws supplied by the environment). -/
def predict_total (env : PredictEnv) : ℝ × ℝ :=
  (env.totalPoints, env.totalConf)

/-- `PredictionEngine._generate_explanation`: formats the top three
feature importances; if fewer than three exist the `IndexError` is
caught by the method's own `except`, which substitutes the fixed
generic explanation. -/
def generate_explanation (env : PredictEnv) : Explanation :=
  match env.featureImportances with
  | i0 :: i1 :: i2 :: _ =>
    { main_factors := [
        "Team strength differential: " ++ env.fmtImportance i0.2,
        "Recent form: " ++ env.fmtImportance i1.2,
        "Home court advantage: " ++ env.fmtImportance i2.2]
      supporting_factors := []
      risk_factors := ["Model uncertainty", "Limited recent data"]
      confidence_reasoning := "Based on ensemble model agreement and historical accuracy" }
  | _ =>
    { main_factors := ["Team performance analysis", "Historical matchup data"]
      supporting_factors := ["Recent player performance", "Home/away records"]
      risk_factors := ["Injury reports", "Weather conditions"]
      confidence_reasoning := "Based on available data and model performance" }

/-- `PredictionEngine._generate_demo_prediction`: the always-succeeding
fallback — a win-probability payload from the demo random draws, the
fixed demo explanation, and `model_info` with version `"demo-1.0.0"`,
no training timestamp and empty weights. -/
def generate_demo_prediction (env : PredictEnv) (gameId : String)
    (now : Nat) : PredictionResult :=
  { game_id := gameId
    predictions := [(PredictionType.win_probability,
      Payload.winProb env.demoProb env.demoConf)]
    explanation := some
      { main_factors := ["Demo mode - statistical analysis", "Team performance metrics"]
        supporting_factors := ["Recent game outcomes", "Player availability"]
        risk_factors := ["Limited data in demo mode"]
        confidence_reasoning := "Demo prediction with mock confidence" }
    model_info_version := "demo-1.0.0"
    model_info_last_trained := none
    model_info_ensemble_weights := []
    confidence := env.demoConf
    created_at := now }

/-- Python dict assignment `predictions[pred_type] = payload` on the
association list (overwrite semantics). -/
def dictSet (preds : List (PredictionType × Payload)) (k : PredictionType)
    (v : Payload) : List (PredictionType × Payload) :=
  preds.filter (fun kv => !(kv.1 == k)) ++ [(k, v)]

/-- The `for pred_type in prediction_types` dispatch loop of `predict`:
win-probability and spread payloads from the (never-raising) helpers,
the total-points placeholder, and no entry at all for
`PLAYER_PERFORMANCE` (the loop has no branch for it). -/
noncomputable def computePredictions (s : EngineState) (env : PredictEnv)
    (v : List ℝ) (types : List PredictionType) :
    List (PredictionType × Payload) :=
  types.foldl (fun preds t =>
    match t with
    | PredictionType.win_probability =>
      let pc := predict_win_probability s env v
      dictSet preds t (Payload.winProb pc.1 pc.2)
    | PredictionType.spread =>
      let sc := predict_spread s env v
      dictSet preds t (Payload.spread sc.1 sc.2)
    | PredictionType.total_points =>
      let tc := predict_total env
      dictSet preds t (Payload.total tc.1 tc.2)
    | PredictionType.player_performance => preds) []

/-- `predictions.get(PredictionType.WIN_PROBABILITY, {}).get('confidence', 0.5)`. -/
def overallConfidence (preds : List (PredictionType × Payload)) : ℝ :=
  match preds.find? (fun kv => kv.1 == PredictionType.win_probability) with
  | some kv => kv.2.confidenceOf
  | none => 0.5

/-- The body of `PredictionEngine.predict` (the part inside its `try`):
cache lookup (and `parse_obj` of a hit), feature resolution (structured
features, else the builder on the game id — either may raise), the
per-kind dispatch loop, optional explanation, result assembly, and the
write-through `cache_manager.set` with TTL 3600.  An `.error` value is
an exception reaching `predict`'s `except Exception`. -/
noncomputable def predict_body (s : EngineState) (env : PredictEnv)
    (gameId : String) (features : Option Features)
    (predictionTypes : List PredictionType) (includeExplanation : Bool)
    (now : Nat) : Except PyErr PredictionResult :=
  let cacheKey := cache_key_of env gameId features
  match (if env.hasCacheManager then env.cacheGet cacheKey else .ok none) with
  | .error e => .error e
  | .ok (some cachedResult) => env.parseObj cachedResult
  | .ok none =>
    match (match features with
           | some f => env.buildFromFeatures f
           | none => env.buildFromGameId gameId) with
    | .error e => .error e
    | .ok featureVector =>
      let types := if predictionTypes.isEmpty
        then [PredictionType.win_probability] else predictionTypes
      let preds := computePredictions s env featureVector types
      let explanation :=
        if includeExplanation then some (generate_explanation env) else none
      let result : PredictionResult :=
        { game_id := gameId
          predictions := preds
          explanation := explanation
          model_info_version := s.model_version
          model_info_last_trained := s.last_trained
          model_info_ensemble_weights := s.ensemble_weights
          confidence := overallConfidence preds
          created_at := now }
      match (if env.hasCacheManager then env.cacheSet cacheKey result 3600
             else .ok ()) with
      | .error e => .error e
      | .ok _ => .ok result

/-- `PredictionEngine.predict`: the body wrapped in the blanket
`except Exception` that substitutes `_generate_demo_prediction` — the
method always returns a `PredictionResult`, never an error. -/
noncomputable def predict (s : EngineState) (env : PredictEnv)
    (gameId : String) (features : Option Features)
    (predictionTypes : List PredictionType) (includeExplanation : Bool)
    (now : Nat) : PredictionResult :=
  match predict_body s env gameId features predictionTypes
      includeExplanation now with
  | .ok r => r
  | .error _ => generate_demo_prediction env gameId now

/-- `PredictionEngine.predict_batch`: one `predict` task per request,
gathered; since `predict` is total, every slot holds a result. -/
noncomputable def predict_batch (s : EngineState) (env : PredictEnv)
    (requests : List PredRequest) (now : Nat) : List PredictionResult :=
  requests.map (fun r =>
    predict s env r.game_id r.features r.prediction_types
      r.include_explanation now)

/-- The success count of the `/predict/batch` handler in `main.py`:
`len([p for p in predictions if p.predictions])`. -/
def successful_predictions (results : List PredictionResult) : Nat :=
  (results.filter (fun p => !p.predictions.isEmpty)).length

/-! ### Concrete instances used by witnesses and counterexamples -/

/-- A concrete collaborator environment: no cache manager, a feature
builder that is unreachable exactly for game `"g3"`, and fixed values
for every random draw. -/
def envDemo : PredictEnv :=
  { hasCacheManager := false
    cacheGet := fun _ => .ok none
    parseObj := fun _ => .error ⟨"ValidationError"⟩
    buildFromFeatures := fun _ => .ok [0]
    buildFromGameId := fun g =>
      if g == "g3" then .error ⟨"FeatureUnavailable"⟩ else .ok [0]
    cacheSet := fun _ _ _ => .ok ()
    hashFn := fun _ => 0
    strFeatures := fun _ => ""
    untrainedProb := 0.5
    untrainedConf := 0.7
    demoProb := 0.5
    demoConf := 0.7
    totalPoints := 220
    totalConf := 0.7
    featureImportances := []
    fmtImportance := fun _ => "" }

/-- A trained engine whose LightGBM model throws on every call
(an inference error), with stock weights and an identity scaler. -/
def engineInferFail : EngineState :=
  { initEngine with
    is_trained := true
    scaler := some (fun l => l)
    lightgbm_model := some (fun _ => .error ⟨"InferenceError"⟩)
    logistic_model := some (fun _ => .ok 0.5)
    random_forest_model := some (fun _ => .ok 0.5)
    ensemble_weights := defaultEnsembleWeights }

/-- A trained engine whose three models return the constant
probabilities 0.6, 0.5 and 0.4, with an identity scaler. -/
def engineTrained : EngineState :=
  { initEngine with
    is_trained := true
    scaler := some (fun l => l)
    lightgbm_model := some (fun _ => .ok 0.6)
    logistic_model := some (fun _ => .ok 0.5)
    random_forest_model := some (fun _ => .ok 0.4)
    ensemble_weights := defaultEnsembleWeights }

/-- A `ModelFeatures` object with every numeric field zero, every
optional field absent and every flag false — the "present-but-empty"
feature object of the cache-key property. -/
def emptyFeatures : Features :=
  { home_team_elo := 0, away_team_elo := 0, elo_spread := 0
    home_team_form := 0, away_team_form := 0
    home_team_rest_days := 0, away_team_rest_days := 0
    home_team_wins := 0, home_team_losses := 0
    away_team_wins := 0, away_team_losses := 0
    home_team_off_rating := none, home_team_def_rating := none
    away_team_off_rating := none, away_team_def_rating := none
    is_playoff := false, is_back_to_back := false
    venue_advantage := 0
    temperature := none, wind_speed := none, precipitation := false
    home_team_injury_impact := 0, away_team_injury_impact := 0 }

/-- An environment whose Python `hash` is string length and whose
`str` of a features object is the empty string (so `str(None) = "None"`
and `str(features)` hash to different values). -/
def envKey : PredictEnv :=
  { envDemo with
    hashFn := fun s => (s.length : Int)
    strFeatures := fun _ => "" }

/-- A persisted bundle whose five artifact files all exist and whose
metadata carries ensemble weights `{lightgbm: 0.9, logistic: 0.9,
random_forest: 0.9}` — summing to 2.7, far outside 1.0 ± 1e-6. -/
def badDisk : Disk :=
  { allFilesExist := true
    lgbModel := fun _ => .ok 0.5
    logisticModel := fun _ => .ok 0.5
    rfModel := fun _ => .ok 0.5
    scalerFn := fun l => l
    metaVersion := some "1.0.0"
    metaLastTrained := some 17
    metaFeatureNames := some ["feature_0"]
    metaEnsembleWeights := some
      [("lightgbm", 0.9), ("logistic", 0.9), ("random_forest", 0.9)]
    metaPerformance := none }

/-- The batch of five default requests (no inline features, default
prediction kinds, no explanation) for games g1..g5; with `envDemo`,
exactly request #3's feature-builder call fails. -/
def batchRequests : List PredRequest :=
  [⟨"g1", none, [], false⟩, ⟨"g2", none, [], false⟩,
   ⟨"g3", none, [], false⟩, ⟨"g4", none, [], false⟩,
   ⟨"g5", none, [], false⟩]

/-- The sum of the values of an ensemble-weights dict. -/
def weightsSum (l : List (String × ℝ)) : ℝ := (l.map Prod.snd).sum

end NovaTitan

namespace NovaTitan

/-! ### Helper lemmas -/

/-- Any failure of `predict`'s body is replaced by the demo fallback. -/
theorem predict_of_body_error {s : EngineState} {env : PredictEnv}
    {gameId : String} {features : Option Features}
    {types : List PredictionType} {incl : Bool} {now : Nat} {e : PyErr}
    (h : predict_body s env gameId features types incl now = .error e) :
    predict s env gameId features types incl now =
      generate_demo_prediction env gameId now := by
  unfold predict
  rw [h]

/-- When `predict`'s body succeeds, `predict` returns its result. -/
theorem predict_of_body_ok {s : EngineState} {env : PredictEnv}
    {gameId : String} {features : Option Features}
    {types : List PredictionType} {incl : Bool} {now : Nat}
    {r : PredictionResult}
    (h : predict_body s env gameId features types incl now = .ok r) :
    predict s env gameId features types incl now = r := by
  unfold predict
  rw [h]

/-- With no cache manager, no inline features, default prediction
kinds and no explanation, a successful feature-builder call makes
`predict`'s body succeed with the fully-assembled result. -/
theorem predict_body_default_ok {s : EngineState} {env : PredictEnv}
    {g : String} {v : List ℝ} {now : Nat}
    (hcm : env.hasCacheManager = false)
    (hb : env.buildFromGameId g = .ok v) :
    predict_body s env g none [] false now =
      .ok { game_id := g
            predictions := [(PredictionType.win_probability,
              Payload.winProb (predict_win_probability s env v).1
                (predict_win_probability s env v).2)]
            explanation := none
            model_info_version := s.model_version
            model_info_last_trained := s.last_trained
            model_info_ensemble_weights := s.ensemble_weights
            confidence := (predict_win_probability s env v).2
            created_at := now } := by
  unfold predict_body
  rw [hcm]
  simp only [if_false, Bool.false_eq_true]
  rw [hb]
  rfl

/-- Like `predict_body_default_ok`, but with `include_explanation`
true: the result carries the (never-failing) explanation. -/
theorem predict_body_expl_ok {s : EngineState} {env : PredictEnv}
    {g : String} {v : List ℝ} {now : Nat}
    (hcm : env.hasCacheManager = false)
    (hb : env.buildFromGameId g = .ok v) :
    predict_body s env g none [] true now =
      .ok { game_id := g
            predictions := [(PredictionType.win_probability,
              Payload.winProb (predict_win_probability s env v).1
                (predict_win_probability s env v).2)]
            explanation := some (generate_explanation env)
            model_info_version := s.model_version
            model_info_last_trained := s.last_trained
            model_info_ensemble_weights := s.ensemble_weights
            confidence := (predict_win_probability s env v).2
            created_at := now } := by
  unfold predict_body
  rw [hcm]
  simp only [if_false, Bool.false_eq_true]
  rw [hb]
  rfl

/-- Left-cancellation of string concatenation. -/
theorem string_append_cancel_left {a b c : String} (h : a ++ b = a ++ c) :
    b = c := by
  apply String.ext
  have hd := congrArg String.data h
  rw [String.data_append, String.data_append] at hd
  exact List.append_cancel_left hd

/-- `predict`'s body fails with the given error when there is no cache
manager and the feature builder fails for the game id. -/
theorem predict_body_build_error {s : EngineState} {env : PredictEnv}
    {g : String} {e : PyErr} {now : Nat}
    (hcm : env.hasCacheManager = false)
    (hb : env.buildFromGameId g = .error e) :
    predict_body s env g none [] false now = .error e := by
  unfold predict_body
  rw [hcm]
  simp only [if_false, Bool.false_eq_true]
  rw [hb]

/-! ### Claim theorems -/

/-- Claim C10: `retrain_model` mutates only the engine's `last_trained`
timestamp; the three models, the scaler, `feature_names`,
`ensemble_weights`, `model_version`, `is_trained` and
`performance_metrics` are all unchanged, and no training or persistence
is performed. -/
theorem retrain_model_only_updates_last_trained (s : EngineState) (now : Nat) :
    (retrain_model s now).last_trained = some now ∧
    (retrain_model s now).lightgbm_model = s.lightgbm_model ∧
    (retrain_model s now).logistic_model = s.logistic_model ∧
    (retrain_model s now).random_forest_model = s.random_forest_model ∧
    (retrain_model s now).ensemble_weights = s.ensemble_weights ∧
    (retrain_model s now).scaler = s.scaler ∧
    (retrain_model s now).feature_names = s.feature_names ∧
    (retrain_model s now).model_version = s.model_version ∧
    (retrain_model s now).is_trained = s.is_trained ∧
    (retrain_model s now).performance_metrics = s.performance_metrics :=
  ⟨rfl, rfl, rfl, rfl, rfl, rfl, rfl, rfl, rfl, rfl⟩

/-- Claim C3 (code bug): training a freshly constructed engine does NOT
use the fixed default weights and does NOT leave non-empty ensemble
weights.  `__init__` sets `ensemble_weights = {}` and `_train_ensemble`
never writes it, so `_evaluate_ensemble`'s weight lookup raises
`KeyError('lightgbm')` — silently caught, leaving
`performance_metrics = None` — and the resulting bundle still has an
empty weights dict (models, scaler, feature names, trained flag and
timestamp ARE set). -/
theorem train_ensemble_fresh_engine_leaves_empty_weights (env : TrainEnv)
    (now : Nat) :
    (train_ensemble initEngine env now).ensemble_weights = [] ∧
    (train_ensemble initEngine env now).performance_metrics = none ∧
    evaluate_ensemble_body [] env.lgbValPred env.lrValPred env.rfValPred
      env.metricsOf = .error (keyError "lightgbm") ∧
    (train_ensemble initEngine env now).is_trained = true ∧
    (train_ensemble initEngine env now).last_trained = some now ∧
    (train_ensemble initEngine env now).lightgbm_model = some env.fittedLgb ∧
    (train_ensemble initEngine env now).logistic_model = some env.fittedLogistic ∧
    (train_ensemble initEngine env now).random_forest_model = some env.fittedRF ∧
    (train_ensemble initEngine env now).scaler = some env.fittedScaler :=
  ⟨rfl, rfl, rfl, rfl, rfl, rfl, rfl, rfl, rfl⟩

/-- Claim C5 (counterexample): a persisted bundle whose ensemble
weights sum to 2.7 — far outside 1.0 ± 1e-6 — is NOT rejected by
`_load_models`: the load succeeds verbatim and the engine becomes
trained. -/
theorem load_models_accepts_bad_weights :
    (load_models initEngine badDisk).is_trained = true ∧
    (load_models initEngine badDisk).ensemble_weights =
      [("lightgbm", 0.9), ("logistic", 0.9), ("random_forest", 0.9)] ∧
    weightsSum (load_models initEngine badDisk).ensemble_weights = 2.7 ∧
    |weightsSum (load_models initEngine badDisk).ensemble_weights - 1| >
      1e-6 := by
  have hw : (load_models initEngine badDisk).ensemble_weights =
      [("lightgbm", 0.9), ("logistic", 0.9), ("random_forest", 0.9)] := rfl
  refine ⟨rfl, hw, ?_, ?_⟩
  · rw [hw]; unfold weightsSum; simp; norm_num
  · rw [hw]; unfold weightsSum; simp; norm_num
    rw [abs_of_pos] <;> norm_num

/-- Claim C5 (amended): `_load_models` performs no validation at all —
whenever all five artifact files exist, the metadata (including any
ensemble-weights dict, however inconsistent) is accepted verbatim,
with the weights defaulting to {lightgbm: 0.5, logistic: 0.3,
random_forest: 0.2} only when absent, and the engine is marked
trained. -/
theorem load_models_no_validation (s : EngineState) (d : Disk)
    (h : d.allFilesExist = true) :
    (load_models s d).is_trained = true ∧
    (load_models s d).ensemble_weights =
      d.metaEnsembleWeights.getD defaultEnsembleWeights ∧
    (load_models s d).model_version = d.metaVersion.getD "1.0.0" ∧
    (load_models s d).feature_names = d.metaFeatureNames.getD [] ∧
    (load_models s d).last_trained = d.metaLastTrained ∧
    (load_models s d).performance_metrics = d.metaPerformance := by
  unfold load_models
  rw [h]
  exact ⟨rfl, rfl, rfl, rfl, rfl, rfl⟩

/-- Witness for the amended C5 theorem at the concrete corrupt disk. -/
theorem load_models_no_validation_witness :
    badDisk.allFilesExist = true ∧
    (load_models initEngine badDisk).is_trained = true :=
  ⟨rfl, (load_models_no_validation initEngine badDisk rfl).1⟩

/-- Claim C2: for any three per-model probabilities in [0,1], the
ensemble confidence equals `max(0.5, 1.0 - 2 * stddev(p1, p2, p3))`;
hence it is always ≥ 0.5 and ≤ 1.0, and when the three probabilities
are all equal it is exactly 1.0. -/
theorem confidence_formula_and_bounds (p1 p2 p3 : ℝ)
    (h1l : 0 ≤ p1) (h1u : p1 ≤ 1) (h2l : 0 ≤ p2) (h2u : p2 ≤ 1)
    (h3l : 0 ≤ p3) (h3u : p3 ≤ 1) :
    confidence3 p1 p2 p3 = max 0.5 (1.0 - 2 * npStd3 p1 p2 p3) ∧
    0.5 ≤ confidence3 p1 p2 p3 ∧
    confidence3 p1 p2 p3 ≤ 1 ∧
    (p1 = p2 → p2 = p3 → confidence3 p1 p2 p3 = 1) := by
  have hstd : 0 ≤ npStd3 p1 p2 p3 := by
    unfold npStd3; exact Real.sqrt_nonneg _
  refine ⟨?_, ?_, ?_, ?_⟩
  · unfold confidence3
    rw [mul_comm (npStd3 p1 p2 p3) 2]
  · exact le_max_left _ _
  · unfold confidence3
    apply max_le
    · norm_num
    · nlinarith
  · intro h12 h23
    rw [h12, h23]
    unfold confidence3 npStd3
    rw [show (p3 + p3 + p3) / 3 = p3 by ring]
    simp [Real.sqrt_zero]
    norm_num

/-- Witness for C2 at the three equal probabilities 0.5, 0.5, 0.5. -/
theorem confidence_formula_and_bounds_witness :
    (0 : ℝ) ≤ 0.5 ∧ (0.5 : ℝ) ≤ 1 ∧ confidence3 0.5 0.5 0.5 = 1 :=
  ⟨by norm_num, by norm_num,
    (confidence_formula_and_bounds 0.5 0.5 0.5 (by norm_num) (by norm_num)
      (by norm_num) (by norm_num) (by norm_num) (by norm_num)).2.2.2 rfl rfl⟩

/-- Claim C7: on a trained engine, the logistic-regression model is
invoked on the scaler-transformed vector `sc v` while the LightGBM and
random-forest models are invoked on the raw vector `v`, and the
combined probability is the weighted sum of the three per-model
probabilities under the bundle's stored weights. -/
theorem ensemble_scaling_asymmetry_and_weighted_sum (s : EngineState)
    (env : PredictEnv) (v : List ℝ) (sc : ScalerFn) (fl fg fr : ModelFn)
    (pl pg pr wLgb wLog wRf : ℝ)
    (htr : s.is_trained = true)
    (hsc : s.scaler = some sc)
    (hl : s.lightgbm_model = some fl)
    (hg : s.logistic_model = some fg)
    (hr : s.random_forest_model = some fr)
    (hplv : fl v = .ok pl)
    (hpgv : fg (sc v) = .ok pg)
    (hprv : fr v = .ok pr)
    (hwl : dictGet s.ensemble_weights "lightgbm" = .ok wLgb)
    (hwo : dictGet s.ensemble_weights "logistic" = .ok wLog)
    (hwr : dictGet s.ensemble_weights "random_forest" = .ok wRf) :
    predict_win_probability s env v =
      (wLgb * pl + wLog * pg + wRf * pr, confidence3 pl pg pr) := by
  unfold predict_win_probability predict_win_probability_body
  simp only [htr, hsc, hl, hg, hr, attrOfOption, if_true, hplv, hpgv, hprv,
    hwl, hwo, hwr]

/-- Witness for C7 at a concrete trained engine whose models return
0.6, 0.5 and 0.4 under the stock weights 0.5 / 0.3 / 0.2. -/
theorem ensemble_scaling_asymmetry_and_weighted_sum_witness :
    engineTrained.is_trained = true ∧
    predict_win_probability engineTrained envDemo [1] =
      (0.5 * 0.6 + 0.3 * 0.5 + 0.2 * 0.4, confidence3 0.6 0.5 0.4) :=
  ⟨rfl, ensemble_scaling_asymmetry_and_weighted_sum engineTrained envDemo [1]
    (fun l => l) (fun _ => .ok 0.6) (fun _ => .ok 0.5) (fun _ => .ok 0.4)
    0.6 0.5 0.4 0.5 0.3 0.2 rfl rfl rfl rfl rfl rfl rfl rfl rfl rfl rfl⟩

/-- Claim C8: the spread payload equals `(p - 0.5) * 20` where `p` is
the win probability produced for that vector, the spread's confidence
equals the win-probability confidence, and a win probability of
exactly 0.5 yields a spread of exactly 0. -/
theorem spread_linear_map (s : EngineState) (env : PredictEnv) (v : List ℝ) :
    predict_spread s env v =
      (((predict_win_probability s env v).1 - 0.5) * 20,
        (predict_win_probability s env v).2) ∧
    ((predict_win_probability s env v).1 = 0.5 →
      (predict_spread s env v).1 = 0) := by
  constructor
  · unfold predict_spread
    simp only [ite_self]
  · intro h
    unfold predict_spread
    simp only [ite_self, h]
    norm_num

/-- Witness for C8: the untrained engine with placeholder probability
0.5 yields a spread of exactly 0. -/
theorem spread_linear_map_witness :
    (predict_win_probability initEngine envDemo []).1 = 0.5 ∧
    (predict_spread initEngine envDemo []).1 = 0 :=
  ⟨rfl, (spread_linear_map initEngine envDemo []).2 rfl⟩

/-- Claim C9: the cache key is computed deterministically from the game
id and the Python hash of `str(features)` (keys agree whenever those
hashes agree), and it distinguishes absent features from
present-but-empty features: for the same game id, the key for
`features = None` differs from the key for a present feature object,
provided the two hashes do not collide (`str(None) = "None"` versus the
object's rendering). -/
theorem cache_key_distinguishes_none_from_features (env : PredictEnv)
    (g : String) (f : Features)
    (hne : toString (env.hashFn (env.strFeatures f)) ≠
      toString (env.hashFn "None")) :
    (∀ (g2 : String) (f1 f2 : Option Features),
      env.hashFn (pyStrOfFeatures env.strFeatures f1) =
        env.hashFn (pyStrOfFeatures env.strFeatures f2) →
      cache_key_of env g2 f1 = cache_key_of env g2 f2) ∧
    cache_key_of env g (some f) ≠ cache_key_of env g none := by
  constructor
  · intro g2 f1 f2 h
    unfold cache_key_of
    rw [h]
  · intro hEq
    unfold cache_key_of at hEq
    exact hne (string_append_cancel_left hEq)

/-- Witness for C9: with hash = string length, the key for a
present-but-empty feature object differs from the key for absent
features. -/
theorem cache_key_distinguishes_none_from_features_witness :
    toString (envKey.hashFn (envKey.strFeatures emptyFeatures)) ≠
      toString (envKey.hashFn "None") ∧
    cache_key_of envKey "g1" (some emptyFeatures) ≠
      cache_key_of envKey "g1" none := by
  have h : toString (envKey.hashFn (envKey.strFeatures emptyFeatures)) ≠
      toString (envKey.hashFn "None") := by decide
  exact ⟨h,
    (cache_key_distinguishes_none_from_features envKey "g1" emptyFeatures h).2⟩

/-- Claim C1 (counterexample): a model-inference failure — one of the
failing steps the claim names — does NOT make `predict` return a demo
prediction: on a trained engine whose model call throws, the
win-probability body errors, yet the returned result carries the
trained version "1.0.0" (no "demo-" prefix), a normally generated
explanation, and is not the demo prediction, because the inference
error is swallowed inside `_predict_win_probability` before `predict`'s
fallback can see it. -/
theorem predict_inference_failure_keeps_trained_version :
    predict_win_probability_body engineInferFail envDemo [0] =
      .error ⟨"InferenceError"⟩ ∧
    (predict engineInferFail envDemo "g2" none [] true 0).model_info_version
      = "1.0.0" ∧
    "demo-".data.isPrefixOf
      (predict engineInferFail envDemo "g2" none [] true
        0).model_info_version.data = false ∧
    (predict engineInferFail envDemo "g2" none [] true 0).explanation =
      some (generate_explanation envDemo) ∧
    predict engineInferFail envDemo "g2" none [] true 0 ≠
      generate_demo_prediction envDemo "g2" 0 := by
  have hb : predict_win_probability_body engineInferFail envDemo [0] =
      .error ⟨"InferenceError"⟩ := rfl
  have hpred := predict_of_body_ok
    (@predict_body_expl_ok engineInferFail envDemo "g2" [0] 0 rfl rfl)
  have hv : (predict engineInferFail envDemo "g2" none [] true
      0).model_info_version = "1.0.0" := by
    rw [hpred]; rfl
  refine ⟨hb, hv, ?_, ?_, ?_⟩
  · rw [hpred]; decide
  · rw [hpred]
  · intro h
    rw [h] at hv
    exact absurd hv (by decide)

/-- Claim C1 (amended): `predict` never raises — it is a total
function — and any failure that reaches ITS OWN body (cache-hit
parsing, feature building, cache write) is replaced by the demo
prediction for that game id, whose `model_info.version` starts with
`"demo-"`; when the body succeeds, the body's result is returned
unchanged.  Model-inference and explanation failures, however, never
reach this fallback: an error in `_predict_win_probability`'s body is
recovered locally as the pair (0.5, 0.5), and `_generate_explanation`
degrades to the fixed generic explanation when fewer than three
feature importances exist, so those failures yield a normally
assembled, non-demo result. -/
theorem predict_demo_fallback_only_for_body_errors (s : EngineState)
    (env : PredictEnv) (gameId : String) (features : Option Features)
    (types : List PredictionType) (incl : Bool) (now : Nat) :
    (∀ e, predict_body s env gameId features types incl now = .error e →
      predict s env gameId features types incl now =
        generate_demo_prediction env gameId now ∧
      (generate_demo_prediction env gameId now).game_id = gameId ∧
      "demo-".data.isPrefixOf
        (generate_demo_prediction env gameId now).model_info_version.data =
        true) ∧
    (predict_body s env gameId features types incl now =
        .ok (predict s env gameId features types incl now) ∨
      predict s env gameId features types incl now =
        generate_demo_prediction env gameId now) ∧
    (∀ (v : List ℝ) (e : PyErr),
      predict_win_probability_body s env v = .error e →
      predict_win_probability s env v = (0.5, 0.5)) ∧
    (env.featureImportances = [] →
      generate_explanation env =
        { main_factors := ["Team performance analysis",
            "Historical matchup data"]
          supporting_factors := ["Recent player performance",
            "Home/away records"]
          risk_factors := ["Injury reports", "Weather conditions"]
          confidence_reasoning :=
            "Based on available data and model performance" }) := by
  refine ⟨?_, ?_, ?_, ?_⟩
  · intro e he
    refine ⟨predict_of_body_error he, rfl, ?_⟩
    show "demo-".data.isPrefixOf "demo-1.0.0".data = true
    decide
  · cases h : predict_body s env gameId features types incl now with
    | ok r =>
      left
      have hr : predict s env gameId features types incl now = r := by
        unfold predict; rw [h]
      rw [hr]
    | error e =>
      right
      exact predict_of_body_error h
  · intro v e h
    unfold predict_win_probability
    rw [h]
  · intro h
    unfold generate_explanation
    rw [h]

/-- Witness for the amended C1 theorem: the builder failure for game g3
produces the demo prediction with a "demo-" version, while the
inference failure on the trained engine is recovered locally as
(0.5, 0.5). -/
theorem predict_demo_fallback_only_for_body_errors_witness :
    predict initEngine envDemo "g3" none [] false 0 =
      generate_demo_prediction envDemo "g3" 0 ∧
    "demo-".data.isPrefixOf
      (generate_demo_prediction envDemo "g3" 0).model_info_version.data =
      true ∧
    predict_win_probability engineInferFail envDemo [0] = (0.5, 0.5) := by
  have h1 := (predict_demo_fallback_only_for_body_errors initEngine envDemo
    "g3" none [] false 0).1 ⟨"FeatureUnavailable"⟩ rfl
  have h2 := (predict_demo_fallback_only_for_body_errors engineInferFail
    envDemo "g1" none [] false 0).2.2.1 [0] ⟨"InferenceError"⟩ rfl
  exact ⟨h1.1, h1.2.2, h2⟩

/-- Claim C6 (counterexample): on a TRAINED engine whose model call
throws during win-probability inference, the result is NOT a demo
prediction — it carries the trained model's version "1.0.0" (not a
"demo-" label) and the locally substituted payload (0.5, 0.5), because
`_predict_win_probability`'s own `except` swallows the inference error
before `predict`'s fallback can see it. -/
theorem inference_error_result_not_demo :
    predict_win_probability_body engineInferFail envDemo [0] =
      .error ⟨"InferenceError"⟩ ∧
    (predict engineInferFail envDemo "g1" none [] false 0).model_info_version
      = "1.0.0" ∧
    "demo-".data.isPrefixOf
      (predict engineInferFail envDemo "g1" none [] false
        0).model_info_version.data = false ∧
    (predict engineInferFail envDemo "g1" none [] false 0).predictions =
      [(PredictionType.win_probability, Payload.winProb 0.5 0.5)] := by
  have hb : predict_win_probability_body engineInferFail envDemo [0] =
      .error ⟨"InferenceError"⟩ := rfl
  have hpwp : predict_win_probability engineInferFail envDemo [0] =
      (0.5, 0.5) := by
    unfold predict_win_probability; rw [hb]
  have hpred := predict_of_body_ok
    (@predict_body_default_ok engineInferFail envDemo "g1" [0] 0 rfl rfl)
  refine ⟨hb, ?_, ?_, ?_⟩
  · rw [hpred]; rfl
  · rw [hpred]; decide
  · rw [hpred, hpwp]

/-- Claim C6 (amended): when the engine is trained and a model call
throws during win-probability inference, the failure is recovered
LOCALLY inside `_predict_win_probability`, which returns the fallback
pair (0.5, 0.5); the prediction result still carries the trained
model's version, not a demo label. -/
theorem inference_error_recovered_locally (s : EngineState)
    (env : PredictEnv) (g : String) (v : List ℝ) (e : PyErr) (now : Nat)
    (hb : predict_win_probability_body s env v = .error e)
    (hcm : env.hasCacheManager = false)
    (hbuild : env.buildFromGameId g = .ok v) :
    predict_win_probability s env v = (0.5, 0.5) ∧
    (predict s env g none [] false now).model_info_version =
      s.model_version ∧
    (predict s env g none [] false now).predictions =
      [(PredictionType.win_probability, Payload.winProb 0.5 0.5)] := by
  have hpwp : predict_win_probability s env v = (0.5, 0.5) := by
    unfold predict_win_probability; rw [hb]
  have hpred : predict s env g none [] false now =
      { game_id := g
        predictions := [(PredictionType.win_probability,
          Payload.winProb (predict_win_probability s env v).1
            (predict_win_probability s env v).2)]
        explanation := none
        model_info_version := s.model_version
        model_info_last_trained := s.last_trained
        model_info_ensemble_weights := s.ensemble_weights
        confidence := (predict_win_probability s env v).2
        created_at := now } := by
    unfold predict
    rw [predict_body_default_ok hcm hbuild]
  refine ⟨hpwp, by rw [hpred], ?_⟩
  rw [hpred, hpwp]

/-- Witness for the amended C6 theorem at the concrete trained engine
whose LightGBM model throws. -/
theorem inference_error_recovered_locally_witness :
    predict_win_probability engineInferFail envDemo [0] = (0.5, 0.5) ∧
    (predict engineInferFail envDemo "g1" none [] false 0).model_info_version
      = "1.0.0" := by
  have h := inference_error_recovered_locally engineInferFail envDemo "g1"
    [0] ⟨"InferenceError"⟩ 0 rfl rfl rfl
  exact ⟨h.1, h.2.1⟩

/-- Claim C4 (counterexample): for the batch of 5 requests in which
exactly request #3's feature-builder call fails, batch prediction
raises no error and returns a 5-element list with slot #3 holding the
demo fallback — but `successful_predictions` is 5, NOT 4, because the
demo fallback's predictions dict is non-empty and the success count
`len([p for p in predictions if p.predictions])` treats it as a
success. -/
theorem batch_demo_fallback_counted_as_success :
    (predict_batch initEngine envDemo batchRequests 0).length = 5 ∧
    (predict_batch initEngine envDemo batchRequests 0).get? 2 =
      some (generate_demo_prediction envDemo "g3" 0) ∧
    successful_predictions (predict_batch initEngine envDemo batchRequests 0)
      = 5 ∧
    successful_predictions (predict_batch initEngine envDemo batchRequests 0)
      ≠ 4 := by
  have q1 := predict_of_body_ok
    (@predict_body_default_ok initEngine envDemo "g1" [0] 0 rfl rfl)
  have q2 := predict_of_body_ok
    (@predict_body_default_ok initEngine envDemo "g2" [0] 0 rfl rfl)
  have q4 := predict_of_body_ok
    (@predict_body_default_ok initEngine envDemo "g4" [0] 0 rfl rfl)
  have q5 := predict_of_body_ok
    (@predict_body_default_ok initEngine envDemo "g5" [0] 0 rfl rfl)
  have q3 : predict initEngine envDemo "g3" none [] false 0 =
      generate_demo_prediction envDemo "g3" 0 :=
    predict_of_body_error (predict_body_build_error rfl rfl)
  have hcount : successful_predictions
      (predict_batch initEngine envDemo batchRequests 0) = 5 := by
    simp [predict_batch, batchRequests, successful_predictions, q1, q2, q3,
      q4, q5, generate_demo_prediction]
  refine ⟨?_, ?_, hcount, ?_⟩
  · simp [predict_batch, batchRequests]
  · simp [predict_batch, batchRequests, List.get?, q3]
  · rw [hcount]; decide

/-- Claim C4 (amended): for a batch of 5 requests in which exactly
request #3's feature-builder call fails, batch prediction raises no
error and returns a 5-element result list whose slot #3 is the demo
fallback for that game, the sibling requests being unaffected; but the
reported `successful_predictions` is 5, not 4, since the demo fallback
counts as a success. -/
theorem batch_partial_failure_isolated (s : EngineState) (env : PredictEnv)
    (now : Nat) (g1 g2 g3 g4 g5 : String) (v1 v2 v4 v5 : List ℝ) (e : PyErr)
    (hcm : env.hasCacheManager = false)
    (h1 : env.buildFromGameId g1 = .ok v1)
    (h2 : env.buildFromGameId g2 = .ok v2)
    (h3 : env.buildFromGameId g3 = .error e)
    (h4 : env.buildFromGameId g4 = .ok v4)
    (h5 : env.buildFromGameId g5 = .ok v5) :
    (predict_batch s env [⟨g1, none, [], false⟩, ⟨g2, none, [], false⟩,
        ⟨g3, none, [], false⟩, ⟨g4, none, [], false⟩,
        ⟨g5, none, [], false⟩] now).length = 5 ∧
    (predict_batch s env [⟨g1, none, [], false⟩, ⟨g2, none, [], false⟩,
        ⟨g3, none, [], false⟩, ⟨g4, none, [], false⟩,
        ⟨g5, none, [], false⟩] now).get? 2 =
      some (generate_demo_prediction env g3 now) ∧
    successful_predictions (predict_batch s env [⟨g1, none, [], false⟩,
        ⟨g2, none, [], false⟩, ⟨g3, none, [], false⟩, ⟨g4, none, [], false⟩,
        ⟨g5, none, [], false⟩] now) = 5 := by
  have q1 := predict_of_body_ok
    (@predict_body_default_ok s env g1 v1 now hcm h1)
  have q2 := predict_of_body_ok
    (@predict_body_default_ok s env g2 v2 now hcm h2)
  have q4 := predict_of_body_ok
    (@predict_body_default_ok s env g4 v4 now hcm h4)
  have q5 := predict_of_body_ok
    (@predict_body_default_ok s env g5 v5 now hcm h5)
  have q3 : predict s env g3 none [] false now =
      generate_demo_prediction env g3 now :=
    predict_of_body_error (predict_body_build_error hcm h3)
  refine ⟨?_, ?_, ?_⟩
  · simp [predict_batch]
  · simp [predict_batch, List.get?, q3]
  · simp [predict_batch, successful_predictions, q1, q2, q3, q4, q5,
      generate_demo_prediction]

/-- Witness for the amended C4 theorem at the concrete batch where
request #3's builder is unreachable. -/
theorem batch_partial_failure_isolated_witness :
    envDemo.buildFromGameId "g3" = .error ⟨"FeatureUnavailable"⟩ ∧
    successful_predictions (predict_batch initEngine envDemo batchRequests 0)
      = 5 := by
  have h := batch_partial_failure_isolated initEngine envDemo 0 "g1" "g2"
    "g3" "g4" "g5" [0] [0] [0] [0] ⟨"FeatureUnavailable"⟩ rfl rfl rfl rfl
    rfl rfl
  exact ⟨rfl, h.2.2⟩

end NovaTitan
